import Mathlib

/-!
Shallow embedding of the Appointment Lifecycle Manager of the
Smart-Health-Portal backend (src/routes/appointments.js, src/index.js).

Database rows are modelled as Lean structures, the database as lists of
rows, and each route handler as a pure function from the database state
(plus the outcomes of the external collaborators: stored procedure,
email sender, clock) to the new state, the HTTP response, and a trace of
the externally visible steps in the order the handler performs them.
Timestamps are integers counting minutes; a day is 1440 minutes and the
SQL `CAST(x AS DATE)` is integer floor-division by 1440.
-/

namespace SHP

/-- A row of the `Appointments` table.  `appointment_date` is the
datetime as a minute count; `status` is the raw string column. -/
structure Appointment where
  appointment_id : Int
  patient_id : Int
  doctor_id : Int
  appointment_date : Int
  status : String
deriving Repr, DecidableEq

/-- A row of the `Notifications` table: `sent_at` is `NULL` (`none`) for
an attempted-but-failed or never-sent notification. -/
structure Notification where
  appointment_id : Int
  sent_at : Option Int
  status : String
deriving Repr, DecidableEq

/-- A row of the `Patients` identity mapping (`user_id` → `patient_id`). -/
structure PatientRow where
  user_id : Int
  patient_id : Int
deriving Repr, DecidableEq

/-- The database state the appointment routes read and write. -/
structure DB where
  appointments : List Appointment
  notifications : List Notification
  patients : List PatientRow
deriving Repr, DecidableEq

/-- An HTTP response: status code, body text (the `error`/`message`
field of the JSON body), and the `appointment_id` field when present. -/
structure Resp where
  status : Nat
  body : String
  appointment_id : Option Int
deriving Repr, DecidableEq

/- ----------------- JS helpers ----------------- -/

/-- JS truthiness test `!x` for an optional number (`undefined`, `NaN`
and `0` are falsy; `NaN` is modelled as `none`). -/
def jsFalsyI : Option Int → Bool
  | none => true
  | some n => n == 0

/-- JS truthiness test `!s` for an optional string (`undefined` and `""`
are falsy). -/
def jsFalsyS : Option String → Bool
  | none => true
  | some s => s == ""

/-- JS `String.prototype.toLowerCase` restricted to the ASCII letters,
which covers every role string the routes compare ("Patient",
"Provider"): map an upper-case letter to its lower-case counterpart. -/
def lowerChar (c : Char) : Char :=
  if 65 ≤ c.toNat ∧ c.toNat ≤ 90 then Char.ofNat (c.toNat + 32) else c

/-- Character-wise lower-casing of a string. -/
def toLowerCase (s : String) : String := ⟨s.data.map lowerChar⟩

/-- The helper `isRole(role, ...allowed)` from routes/appointments.js: membership of
the lower-cased role in the lower-cased allowed list. -/
def isRole (role : String) (allowed : List String) : Bool :=
  (allowed.map (fun r => toLowerCase r)).contains (toLowerCase role)

/- ----------------- updateStatus (PUT /api/appointments/:id) ----------------- -/

/-- Route `PUT /api/appointments/:id` from routes/appointments.js: validate the
requested status against the closed list, run one conditional `UPDATE`,
and translate `@@ROWCOUNT = 0` into a 404. -/
def updateStatusRoute (db : DB) (id : Int) (status : Option String) : DB × Resp :=
  match status with
  | none => (db, ⟨400, "Invalid status", none⟩)
  | some st =>
    if !(["Scheduled", "Completed", "Cancelled"].contains st) then
      (db, ⟨400, "Invalid status", none⟩)
    else
      let affected := db.appointments.countP (fun a => a.appointment_id == id)
      if affected == 0 then
        (db, ⟨404, "Appointment not found", none⟩)
      else
        ({ db with appointments := db.appointments.map (fun a =>
            if a.appointment_id == id then { a with status := st } else a) },
         ⟨200, "Appointment updated", none⟩)

/- ----------------- cancel (DELETE /api/appointments/:id) ----------------- -/

/-- The externally visible steps of the cancel handler, in order. -/
inductive CEv where
  | txBegin
  | updStatus
  | delNotifs
  | txCommit
  | txRollback
  | emailAttempt
deriving Repr, DecidableEq

/-- Route `DELETE /api/appointments/:id` from routes/appointments.js.
`idParam` is `Number(req.params.id)` (`none` = `NaN`).  Inside one
transaction: set the status to `Cancelled`, abort with 404 when zero rows
are affected, delete the appointment's `sent_at IS NULL` notifications,
commit, and only then attempt the best-effort cancellation email (whose
failure is swallowed). -/
def cancelRoute (db : DB) (idParam : Option Int) : DB × Resp × List CEv :=
  match idParam with
  | none => (db, ⟨400, "Invalid appointment id", none⟩, [])
  | some apptId =>
    if apptId == 0 then (db, ⟨400, "Invalid appointment id", none⟩, [])
    else
      let affected := db.appointments.countP (fun a => a.appointment_id == apptId)
      if affected == 0 then
        (db, ⟨404, "Appointment not found", none⟩, [.txBegin, .updStatus, .txRollback])
      else
        ({ db with
            appointments := db.appointments.map (fun a =>
              if a.appointment_id == apptId then { a with status := "Cancelled" } else a),
            notifications := db.notifications.filter (fun n =>
              !(n.appointment_id == apptId && n.sent_at == none)) },
         ⟨200, "Appointment cancelled and email sent", none⟩,
         [.txBegin, .updStatus, .delNotifs, .txCommit, .emailAttempt])

/- ----------------- time normalization ----------------- -/

/-- The helper `pad` from routes/appointments.js: `String(n).padStart(2, "0")`
(for the two-digit component values produced by the time parser). -/
def pad (n : Nat) : String :=
  if n < 10 then "0" ++ toString n else toString n

/-- Numeric value of a decimal digit character (`Number` applied to one
digit of the regex capture). -/
def digitVal (c : Char) : Nat := c.toNat - 48

/-- The regex `^(\d{2}):(\d{2}):(\d{2})$` of `splitToDateAndTime`,
returning the three captured components as numbers. -/
def matchHHMMSS (t : String) : Option (Nat × Nat × Nat) :=
  match t.data with
  | [h1, h2, c1, m1, m2, c2, s1, s2] =>
    if h1.isDigit && h2.isDigit && c1 == ':' && m1.isDigit && m2.isDigit
        && c2 == ':' && s1.isDigit && s2.isDigit then
      some (10 * digitVal h1 + digitVal h2,
            10 * digitVal m1 + digitVal m2,
            10 * digitVal s1 + digitVal s2)
    else none
  | _ => none

/-- The record returned by `splitToDateAndTime`. -/
structure SplitResult where
  dateOnly : String
  timeOnly : String
  dbgTime : String
deriving Repr, DecidableEq

/-- The helper `splitToDateAndTime(dateStr, timeStr)` from routes/appointments.js:
a length-5 time gets `":00"` appended, the result must match
`^(\d{2}):(\d{2}):(\d{2})$` with hour ≤ 23, minute ≤ 59, second ≤ 59,
and the normalized time is rebuilt from the padded components.  A thrown
`Error` is modelled as `Except.error` of its message. -/
def splitToDateAndTime (dateStr timeStr : String) : Except String SplitResult :=
  if dateStr == "" || timeStr == "" then .error "date and time are required"
  else
    let t := if timeStr.length == 5 then timeStr ++ ":00" else timeStr
    match matchHHMMSS t with
    | none => .error "Invalid time; expected HH:mm or HH:mm:ss"
    | some (hh, mm, ss) =>
      if hh > 23 || mm > 59 || ss > 59 then .error "Invalid time components"
      else .ok ⟨dateStr, pad hh ++ ":" ++ pad mm ++ ":" ++ pad ss, t⟩

/- ----------------- booking (POST /api/appointments/my) ----------------- -/

/-- The helper `getPatientIdForUser(userId)` from routes/appointments.js:
`recordset[0]?.patient_id || null` (a `0` id collapses to `null` under
JS `||`). -/
def getPatientIdForUser (db : DB) (userId : Int) : Option Int :=
  match (db.patients.find? (fun p => p.user_id == userId)).map (fun p => p.patient_id) with
  | some pid => if pid == 0 then none else some pid
  | none => none

/-- The error object thrown by the `mssql` driver, as inspected by the
booking catch handler: `err?.originalError?.info?.{number,message}` and
the top-level `err.{number,message}`. -/
structure SqlError where
  origInfoNumber : Option Int
  number : Option Int
  origInfoMessage : Option String
  message : String
deriving Repr, DecidableEq

/-- The lookup `err?.originalError?.info?.number || err?.number` (JS `||`: a `0`
code is falsy and falls through). -/
def errNum (e : SqlError) : Option Int :=
  match e.origInfoNumber with
  | some n => if n == 0 then e.number else some n
  | none => e.number

/-- The lookup `err?.originalError?.info?.message || err.message` (an empty string
is falsy and falls through). -/
def errMsg (e : SqlError) : String :=
  match e.origInfoMessage with
  | some m => if m == "" then e.message else m
  | none => e.message

/-- The six application-defined guard codes of `dbo.ScheduleAppointment`
recognized by the catch handler. -/
def guardCodes : List Int := [50001, 50002, 50003, 50004, 50005, 50006]

/-- The test `[50001..50006].includes(num)` (false when the code is absent). -/
def isGuard (n : Option Int) : Bool :=
  match n with
  | some k => guardCodes.contains k
  | none => false

/-- The catch handler of `POST /api/appointments/my`: guard codes and the
FK-violation code 547 become 400 with the driver's message verbatim;
anything else becomes the generic 500. -/
def classifyBookErr (e : SqlError) : Resp :=
  if isGuard (errNum e) then ⟨400, errMsg e, none⟩
  else if errNum e == some 547 then ⟨400, errMsg e, none⟩
  else ⟨500, "Failed to book appointment", none⟩

/-- Outcomes of the external collaborators during one booking request:
the stored-procedure call result (`recordset[0]?.appointment_id`, or the
thrown driver error), whether the post-booking info `SELECT` succeeds,
whether `sendEmail` succeeds, whether the `Notifications` `INSERT`
succeeds, the clock (`GETUTCDATE()`), and the datetime the procedure
stores for the created appointment. -/
structure Ext where
  spResult : Except SqlError (Option Int)
  infoOk : Bool
  emailOk : Bool
  insertOk : Bool
  now : Int
  apptDate : Int
deriving Repr

/-- The externally visible steps of the booking handler. -/
inductive BookEv where
  | spCall
  | emailAttempt
  | notifInsert
deriving Repr, DecidableEq

/-- Modelled from the spec: the body of the stored procedure
`dbo.ScheduleAppointment` is SQL DDL outside the repository source; per
the spec an appointment is "created exclusively through the scheduling
procedure", so a successful call that returns an identifier is modelled
as appending one appointment row with that identifier and initial status
`Scheduled`. -/
def spInsert (db : DB) (patientId doctorId apptDate apptId : Int) : DB :=
  { db with appointments :=
      db.appointments ++ [⟨apptId, patientId, doctorId, apptDate, "Scheduled"⟩] }

/-- Route `POST /api/appointments/my` from routes/appointments.js: role check,
required-field check, patient-identity resolution, time normalization,
stored-procedure call, then the best-effort confirmation block (info
`SELECT`, email attempt, `Notifications` insert — every failure in the
block is swallowed) and the 201 response carrying the new identifier.
The `if (!appointment_id)` guard is a JS truthiness test, so both a
missing identifier and an identifier 0 take the 500 branch.  A thrown
time-normalization `Error` carries no driver code, so the catch handler
classifies it as the generic 500. -/
def bookMy (db : DB) (req_role : String) (req_user_id : Int)
    (doctor_id : Option Int) (date time : Option String) (ext : Ext) :
    DB × Resp × List BookEv :=
  if !(isRole req_role ["Patient"]) then
    (db, ⟨403, "Only patients can book appointments", none⟩, [])
  else if jsFalsyI doctor_id || jsFalsyS date || jsFalsyS time then
    (db, ⟨400, "doctor_id, date, and time are required", none⟩, [])
  else
    match getPatientIdForUser db req_user_id with
    | none => (db, ⟨404, "Patient record not found", none⟩, [])
    | some patientId =>
      match splitToDateAndTime (date.getD "") (time.getD "") with
      | .error _ => (db, ⟨500, "Failed to book appointment", none⟩, [])
      | .ok _ =>
        match ext.spResult with
        | .error e => (db, classifyBookErr e, [.spCall])
        | .ok r =>
          if jsFalsyI r then
            (db, ⟨500, "SP did not return appointment_id", none⟩, [.spCall])
          else
          let apptId := r.getD 0
          let db1 := spInsert db patientId (doctor_id.getD 0) ext.apptDate apptId
          if ext.infoOk then
            let db2 :=
              if ext.insertOk then
                { db1 with notifications := db1.notifications ++
                    [⟨apptId, if ext.emailOk then some ext.now else none,
                      if ext.emailOk then "Sent" else "Failed"⟩] }
              else db1
            (db2, ⟨201, "", some apptId⟩,
             [.spCall, .emailAttempt] ++ if ext.insertOk then [.notifInsert] else [])
          else
            (db1, ⟨201, "", some apptId⟩, [.spCall])

/- ----------------- reminder sweep (cron job in index.js) ----------------- -/

/-- SQL `CAST(t AS DATE)`: the day number of a minute timestamp (floor). -/
def dateOf (t : Int) : Int := t / 1440

/-- The `NOT EXISTS` dedupe subquery of the reminder cron job: is there a
`Sent` notification for this appointment with
`sent_at >= DATEADD(day, -2, appointment_date)`?  (A `NULL` `sent_at`
makes the SQL comparison unknown, hence false.) -/
def hasSentInWindow (db : DB) (a : Appointment) : Bool :=
  db.notifications.any (fun n =>
    n.appointment_id == a.appointment_id && n.status == "Sent" &&
      (match n.sent_at with
       | some ts => decide (a.appointment_date - 2 * 1440 ≤ ts)
       | none => false))

/-- The `SELECT` of the reminder cron job in index.js: appointments whose
date is tomorrow relative to `now` (`DATEADD(day, 1, GETUTCDATE())`),
still `Scheduled`, with no recent `Sent` notification. -/
def reminderSelect (db : DB) (now : Int) : List Appointment :=
  db.appointments.filter (fun a =>
    dateOf a.appointment_date == dateOf (now + 1440) &&
    a.status == "Scheduled" &&
    !(hasSentInWindow db a))

/-- One tick of the reminder cron job: for each selected appointment,
attempt the reminder email (outcome `emailOk`), then insert a `Sent` row
stamped `now`, or a `Failed` row with `NULL` `sent_at`. -/
def reminderSweep (db : DB) (now : Int) (emailOk : Int → Bool) : DB :=
  { db with notifications := db.notifications ++
      (reminderSelect db now).map (fun a =>
        if emailOk a.appointment_id then ⟨a.appointment_id, some now, "Sent"⟩
        else ⟨a.appointment_id, none, "Failed"⟩) }

/-- The appointment ids the sweep attempts to email on one tick. -/
def reminderEmails (db : DB) (now : Int) : List Int :=
  (reminderSelect db now).map (fun a => a.appointment_id)

/- ----------------- concrete databases used in witnesses ----------------- -/

/-- A database with one Scheduled appointment, one pending and one sent
notification for it, a stray pending notification for another
appointment, and one patient mapping. -/
def sampleDb : DB :=
  ⟨[⟨1, 7, 5, 2880, "Scheduled"⟩],
   [⟨1, none, "Failed"⟩, ⟨1, some 5, "Sent"⟩, ⟨2, none, "Failed"⟩],
   [⟨3, 7⟩]⟩

/-- A database whose single appointment is already Cancelled. -/
def cancelledDb : DB := ⟨[⟨1, 7, 5, 2880, "Cancelled"⟩], [], []⟩

/-- A database with one Scheduled appointment on day 2 and no
notifications, as seen by a sweep on day 1. -/
def sweepDb : DB := ⟨[⟨1, 7, 5, 2880, "Scheduled"⟩], [], []⟩

/- ===================== theorems ===================== -/

/-- C10: a cancel request whose path id coerces to `NaN` or `0` gets the
400 "Invalid appointment id" response, the state is untouched, and the
empty event trace shows no transaction was begun. -/
theorem cancel_invalid_id_guard (db : DB) (idParam : Option Int)
    (h : idParam = none ∨ idParam = some 0) :
    (cancelRoute db idParam).1 = db ∧
    (cancelRoute db idParam).2.1 = ⟨400, "Invalid appointment id", none⟩ ∧
    (cancelRoute db idParam).2.2 = [] := by
  rcases h with h | h <;> subst h <;> simp [cancelRoute]

/-- Witness for C10 at the concrete database `sampleDb` and id `0`. -/
theorem cancel_invalid_id_guard_witness :
    (cancelRoute sampleDb (some 0)).1 = sampleDb ∧
    (cancelRoute sampleDb (some 0)).2.1 = ⟨400, "Invalid appointment id", none⟩ ∧
    (cancelRoute sampleDb (some 0)).2.2 = [] :=
  cancel_invalid_id_guard sampleDb (some 0) (Or.inr rfl)

/-- C7: cancelling a nonexistent appointment id returns 404, changes
nothing, and the trace shows the transaction was rolled back right after
the zero-row status update. -/
theorem cancel_notFound_no_writes (db : DB) (apptId : Int) (hne : apptId ≠ 0)
    (habs : ∀ a ∈ db.appointments, a.appointment_id ≠ apptId) :
    (cancelRoute db (some apptId)).1 = db ∧
    (cancelRoute db (some apptId)).2.1 = ⟨404, "Appointment not found", none⟩ ∧
    (cancelRoute db (some apptId)).2.2 = [CEv.txBegin, CEv.updStatus, CEv.txRollback] := by
  have h0 : (apptId == 0) = false := beq_eq_false_iff_ne.2 hne
  have hcnt : db.appointments.countP (fun a => a.appointment_id == apptId) = 0 :=
    List.countP_eq_zero.2 (by intro a ha; simpa using habs a ha)
  simp [cancelRoute, h0, hcnt]

/-- Witness for C7: cancelling id 9, which `sampleDb` does not contain. -/
theorem cancel_notFound_no_writes_witness :
    (cancelRoute sampleDb (some 9)).1 = sampleDb ∧
    (cancelRoute sampleDb (some 9)).2.1 = ⟨404, "Appointment not found", none⟩ ∧
    (cancelRoute sampleDb (some 9)).2.2 = [CEv.txBegin, CEv.updStatus, CEv.txRollback] :=
  cancel_notFound_no_writes sampleDb 9 (by decide) (by decide)

/-- C8: `updateStatus` rejects a status outside
{Scheduled, Completed, Cancelled} with 400 and no change; with a valid
status it performs the single conditional update, answering 404 when no
row matches and 200 "Appointment updated" when at least one row does. -/
theorem updateStatus_spec (db : DB) (id : Int) (st : String) :
    (updateStatusRoute db id none = (db, ⟨400, "Invalid status", none⟩)) ∧
    (st ∉ ["Scheduled", "Completed", "Cancelled"] →
      updateStatusRoute db id (some st) = (db, ⟨400, "Invalid status", none⟩)) ∧
    (st ∈ ["Scheduled", "Completed", "Cancelled"] →
      (∀ a ∈ db.appointments, a.appointment_id ≠ id) →
      updateStatusRoute db id (some st) = (db, ⟨404, "Appointment not found", none⟩)) ∧
    (st ∈ ["Scheduled", "Completed", "Cancelled"] →
      (∃ a ∈ db.appointments, a.appointment_id = id) →
      (updateStatusRoute db id (some st)).2 = ⟨200, "Appointment updated", none⟩ ∧
      (updateStatusRoute db id (some st)).1.appointments =
        db.appointments.map (fun a =>
          if a.appointment_id = id then { a with status := st } else a)) := by
  refine ⟨rfl, ?_, ?_, ?_⟩
  · intro hst
    have hmem : (["Scheduled", "Completed", "Cancelled"].contains st) = false := by
      simpa [List.contains, List.elem_eq_mem] using hst
    simp only [updateStatusRoute, hmem, Bool.not_false, if_pos]
  · intro hst habs
    have hmem : (["Scheduled", "Completed", "Cancelled"].contains st) = true := by
      simpa [List.contains, List.elem_eq_mem] using hst
    have hcnt : db.appointments.countP (fun a => a.appointment_id == id) = 0 :=
      List.countP_eq_zero.2 (by intro a ha; simpa using habs a ha)
    simp only [updateStatusRoute, hmem, Bool.not_true, Bool.false_eq_true, if_false, hcnt]
    simp
  · intro hst hex
    have hmem : (["Scheduled", "Completed", "Cancelled"].contains st) = true := by
      simpa [List.contains, List.elem_eq_mem] using hst
    obtain ⟨a, ha, hid⟩ := hex
    have hcnt : (db.appointments.countP (fun x => x.appointment_id == id) == 0) = false := by
      rw [beq_eq_false_iff_ne]
      intro h0
      exact absurd (by simpa using hid) (by simpa using List.countP_eq_zero.1 h0 a ha)
    simp only [updateStatusRoute, hmem, Bool.not_true, Bool.false_eq_true, if_false, hcnt]
    refine ⟨trivial, ?_⟩
    exact List.map_congr_left (by intro x _; by_cases hx : x.appointment_id = id <;> simp [hx])

/-- Witness for C8: all four cases at concrete inputs over `sampleDb`. -/
theorem updateStatus_spec_witness :
    (updateStatusRoute sampleDb 1 none = (sampleDb, ⟨400, "Invalid status", none⟩)) ∧
    (updateStatusRoute sampleDb 1 (some "Done") = (sampleDb, ⟨400, "Invalid status", none⟩)) ∧
    (updateStatusRoute sampleDb 9 (some "Completed") =
      (sampleDb, ⟨404, "Appointment not found", none⟩)) ∧
    (updateStatusRoute sampleDb 1 (some "Completed")).2 = ⟨200, "Appointment updated", none⟩ := by
  refine ⟨(updateStatus_spec sampleDb 1 "Done").1, ?_, ?_, ?_⟩
  · exact (updateStatus_spec sampleDb 1 "Done").2.1 (by decide)
  · exact (updateStatus_spec sampleDb 9 "Completed").2.2.1 (by decide) (by decide)
  · exact ((updateStatus_spec sampleDb 1 "Completed").2.2.2 (by decide)
      ⟨⟨1, 7, 5, 2880, "Scheduled"⟩, by decide, rfl⟩).1

/-- C3, counterexample: the claim "no operation performs a transition out
of Cancelled" is false — `updateStatus` on an appointment whose status is
Cancelled happily sets it back to Scheduled and acknowledges with 200. -/
theorem cancelled_escape_cex :
    cancelledDb.appointments = [⟨1, 7, 5, 2880, "Cancelled"⟩] ∧
    (updateStatusRoute cancelledDb 1 (some "Scheduled")).1.appointments =
      [⟨1, 7, 5, 2880, "Scheduled"⟩] ∧
    (updateStatusRoute cancelledDb 1 (some "Scheduled")).2.status = 200 := by
  exact ⟨rfl, rfl, rfl⟩

/-- A map whose function fixes `a` keeps `a` a member. -/
theorem mem_map_self {α : Type} {l : List α} {a : α} (f : α → α)
    (ha : a ∈ l) (hfa : f a = a) : a ∈ l.map f := by
  simpa [hfa] using List.mem_map_of_mem f ha

/-- The cancel `UPDATE` fixes a row that is already Cancelled. -/
theorem cancelled_fix (a : Appointment) (hc : a.status = "Cancelled") (i : Int) :
    (if a.appointment_id == i then { a with status := "Cancelled" } else a) = a := by
  by_cases hai : (a.appointment_id == i) = true
  · cases a
    simp only at hc
    simp [hai, hc]
  · simp only [Bool.not_eq_true] at hai
    simp [hai]

/-- C1: cancelling an existing appointment answers 200; afterwards every
appointment row with that id has status Cancelled and every notification
row for it has a non-NULL `sent_at`; the event trace is exactly
update → purge → commit → email, i.e. the purge is ordered after the
status flip and both are committed before the email side effect. -/
theorem cancel_atomic_spec (db : DB) (apptId : Int) (hne : apptId ≠ 0)
    (hex : ∃ a ∈ db.appointments, a.appointment_id = apptId) :
    (cancelRoute db (some apptId)).2.1 =
      ⟨200, "Appointment cancelled and email sent", none⟩ ∧
    (∀ a ∈ (cancelRoute db (some apptId)).1.appointments,
        a.appointment_id = apptId → a.status = "Cancelled") ∧
    (∀ n ∈ (cancelRoute db (some apptId)).1.notifications,
        n.appointment_id = apptId → n.sent_at ≠ none) ∧
    (cancelRoute db (some apptId)).2.2 =
      [CEv.txBegin, CEv.updStatus, CEv.delNotifs, CEv.txCommit, CEv.emailAttempt] := by
  have h0 : (apptId == 0) = false := beq_eq_false_iff_ne.2 hne
  obtain ⟨a0, ha0, hid0⟩ := hex
  have hcnt : (db.appointments.countP (fun a => a.appointment_id == apptId) == 0) = false := by
    rw [beq_eq_false_iff_ne]
    intro h0c
    exact absurd (by simpa using hid0) (by simpa using List.countP_eq_zero.1 h0c a0 ha0)
  simp only [cancelRoute, h0, Bool.false_eq_true, if_false, hcnt]
  refine ⟨trivial, ?_, ?_, trivial⟩
  · intro a ha hid
    obtain ⟨b, hb, heq⟩ := List.mem_map.1 ha
    by_cases hb' : (b.appointment_id == apptId) = true
    · rw [if_pos hb'] at heq
      rw [← heq]
    · rw [if_neg (by simp [hb'])] at heq
      subst heq
      exact absurd (by simpa using hid) (by simpa using hb')
  · intro n hn hid
    have hp := (List.mem_filter.1 hn).2
    simp only [Bool.not_eq_eq_eq_not, Bool.not_true, Bool.and_eq_false_imp,
      beq_iff_eq] at hp
    intro hnone
    exact absurd hnone (by simpa using hp hid)

/-- Witness for C1 at `sampleDb`, cancelling its appointment 1. -/
theorem cancel_atomic_spec_witness :
    (cancelRoute sampleDb (some 1)).2.1 =
      ⟨200, "Appointment cancelled and email sent", none⟩ ∧
    (∀ a ∈ (cancelRoute sampleDb (some 1)).1.appointments,
        a.appointment_id = 1 → a.status = "Cancelled") ∧
    (∀ n ∈ (cancelRoute sampleDb (some 1)).1.notifications,
        n.appointment_id = 1 → n.sent_at ≠ none) ∧
    (cancelRoute sampleDb (some 1)).2.2 =
      [CEv.txBegin, CEv.updStatus, CEv.delNotifs, CEv.txCommit, CEv.emailAttempt] :=
  cancel_atomic_spec sampleDb 1 (by decide)
    ⟨⟨1, 7, 5, 2880, "Scheduled"⟩, by decide, rfl⟩

/-- C3, amended: of the system's operations only `updateStatus` can move
an appointment out of Cancelled (see the counterexample); booking,
cancellation and the reminder sweep all keep a Cancelled appointment row
intact. -/
theorem cancelled_terminal_except_updateStatus (db : DB) (a : Appointment)
    (ha : a ∈ db.appointments) (hc : a.status = "Cancelled")
    (idParam : Option Int) (role : String) (uid : Int) (did : Option Int)
    (date time : Option String) (ext : Ext) (now : Int) (eo : Int → Bool) :
    a ∈ (cancelRoute db idParam).1.appointments ∧
    a ∈ (bookMy db role uid did date time ext).1.appointments ∧
    a ∈ (reminderSweep db now eo).appointments := by
  refine ⟨?_, ?_, ha⟩
  · rcases idParam with _ | i
    · exact ha
    · simp only [cancelRoute]
      by_cases h0 : (i == 0) = true
      · simp only [h0, if_true]
        exact ha
      · simp only [Bool.not_eq_true] at h0
        simp only [h0, Bool.false_eq_true, if_false]
        by_cases hcnt : (db.appointments.countP (fun x => x.appointment_id == i) == 0) = true
        · simp only [hcnt, if_true]
          exact ha
        · simp only [Bool.not_eq_true] at hcnt
          simp only [hcnt, Bool.false_eq_true, if_false]
          exact mem_map_self _ ha (cancelled_fix a hc i)
  · simp only [bookMy, spInsert]
    repeat' split
    any_goals exact ha
    all_goals exact List.mem_append_left _ ha

/-- Witness for C3's amended theorem on `cancelledDb`. -/
theorem cancelled_terminal_except_updateStatus_witness :
    (⟨1, 7, 5, 2880, "Cancelled"⟩ : Appointment) ∈
      (cancelRoute cancelledDb (some 1)).1.appointments ∧
    (⟨1, 7, 5, 2880, "Cancelled"⟩ : Appointment) ∈
      (bookMy cancelledDb "patient" 3 (some 5) (some "2025-09-02") (some "12:00")
        ⟨.ok (some 2), true, true, true, 100, 2880⟩).1.appointments ∧
    (⟨1, 7, 5, 2880, "Cancelled"⟩ : Appointment) ∈
      (reminderSweep cancelledDb 1500 (fun _ => true)).appointments :=
  cancelled_terminal_except_updateStatus cancelledDb ⟨1, 7, 5, 2880, "Cancelled"⟩
    (by decide) rfl (some 1) "patient" 3 (some 5) (some "2025-09-02") (some "12:00")
    ⟨.ok (some 2), true, true, true, 100, 2880⟩ 1500 (fun _ => true)

/-- A validated booking request reduces to the stored-procedure branch of
the handler. -/
theorem bookMy_sp (db : DB) (role : String) (uid : Int) (did : Option Int)
    (date time : Option String) (ext : Ext) (pid : Int) (sr : SplitResult)
    (hrole : isRole role ["Patient"] = true)
    (hd : jsFalsyI did = false) (hda : jsFalsyS date = false)
    (ht : jsFalsyS time = false)
    (hpid : getPatientIdForUser db uid = some pid)
    (hsplit : splitToDateAndTime (date.getD "") (time.getD "") = .ok sr) :
    bookMy db role uid did date time ext =
      match ext.spResult with
      | .error e => (db, classifyBookErr e, [BookEv.spCall])
      | .ok r =>
        if jsFalsyI r then
          (db, ⟨500, "SP did not return appointment_id", none⟩, [BookEv.spCall])
        else
        let apptId := r.getD 0
        let db1 := spInsert db pid (did.getD 0) ext.apptDate apptId
        if ext.infoOk then
          (if ext.insertOk then
              { db1 with notifications := db1.notifications ++
                  [⟨apptId, if ext.emailOk then some ext.now else none,
                    if ext.emailOk then "Sent" else "Failed"⟩] }
            else db1,
           ⟨201, "", some apptId⟩,
           [BookEv.spCall, BookEv.emailAttempt] ++
             if ext.insertOk then [BookEv.notifInsert] else [])
        else (db1, ⟨201, "", some apptId⟩, [BookEv.spCall]) := by
  simp only [bookMy, hrole, hd, hda, ht, hpid, hsplit, Bool.not_true,
    Bool.or_self, Bool.false_or, Bool.or_false, Bool.false_eq_true, if_false]

/-- C2: when the scheduling procedure throws during a validated booking,
one of the six guard codes yields 400 with the procedure's message
verbatim, the FK-violation code 547 also yields 400 (never 500), and any
other error yields the generic 500; the database is left unchanged. -/
theorem bookErr_classification (db : DB) (role : String) (uid : Int)
    (did : Option Int) (date time : Option String) (ext : Ext) (pid : Int)
    (sr : SplitResult) (e : SqlError)
    (hrole : isRole role ["Patient"] = true)
    (hd : jsFalsyI did = false) (hda : jsFalsyS date = false)
    (ht : jsFalsyS time = false)
    (hpid : getPatientIdForUser db uid = some pid)
    (hsplit : splitToDateAndTime (date.getD "") (time.getD "") = .ok sr)
    (hsp : ext.spResult = .error e) :
    (isGuard (errNum e) = true →
      (bookMy db role uid did date time ext).2.1 = ⟨400, errMsg e, none⟩) ∧
    (errNum e = some 547 →
      (bookMy db role uid did date time ext).2.1 = ⟨400, errMsg e, none⟩ ∧
      (bookMy db role uid did date time ext).2.1.status ≠ 500) ∧
    (isGuard (errNum e) = false → errNum e ≠ some 547 →
      (bookMy db role uid did date time ext).2.1 =
        ⟨500, "Failed to book appointment", none⟩) ∧
    (bookMy db role uid did date time ext).1 = db := by
  have hred := bookMy_sp db role uid did date time ext pid sr hrole hd hda ht hpid hsplit
  rw [hsp] at hred
  refine ⟨?_, ?_, ?_, ?_⟩
  · intro hg
    rw [hred]
    simp [classifyBookErr, hg]
  · intro h547
    rw [hred]
    constructor
    · by_cases hg : isGuard (errNum e) = true
      · simp [classifyBookErr, hg]
      · simp only [Bool.not_eq_true] at hg
        simp [classifyBookErr, hg, h547]
    · by_cases hg : isGuard (errNum e) = true
      · simp [classifyBookErr, hg]
      · simp only [Bool.not_eq_true] at hg
        simp [classifyBookErr, hg, h547]
  · intro hg h547
    rw [hred]
    have h547b : (errNum e == some 547) = false := by
      rw [beq_eq_false_iff_ne]
      exact h547
    simp [classifyBookErr, hg, h547b]
  · rw [hred]

/-- Witness for C2: three concrete driver errors (guard code 50002, FK
code 547, and an unclassified code 2627) during a booking by patient
user 3 of `sampleDb`. -/
theorem bookErr_classification_witness :
    (bookMy sampleDb "Patient" 3 (some 5) (some "2025-09-02") (some "12:00")
        ⟨.error ⟨some 50002, none, some "Doctor not available", "req failed"⟩,
          true, true, true, 100, 2880⟩).2.1 =
      ⟨400, "Doctor not available", none⟩ ∧
    (bookMy sampleDb "Patient" 3 (some 5) (some "2025-09-02") (some "12:00")
        ⟨.error ⟨some 547, none, some "FK violation", "req failed"⟩,
          true, true, true, 100, 2880⟩).2.1 =
      ⟨400, "FK violation", none⟩ ∧
    (bookMy sampleDb "Patient" 3 (some 5) (some "2025-09-02") (some "12:00")
        ⟨.error ⟨some 2627, none, some "dup key", "req failed"⟩,
          true, true, true, 100, 2880⟩).2.1 =
      ⟨500, "Failed to book appointment", none⟩ := by
  refine ⟨?_, ?_, ?_⟩
  · exact (bookErr_classification sampleDb "Patient" 3 (some 5) (some "2025-09-02")
      (some "12:00") _ 7 ⟨"2025-09-02", "12:00:00", "12:00:00"⟩
      ⟨some 50002, none, some "Doctor not available", "req failed"⟩
      (by decide) (by decide) (by decide) (by decide) (by decide) rfl rfl).1
      (by decide)
  · exact ((bookErr_classification sampleDb "Patient" 3 (some 5) (some "2025-09-02")
      (some "12:00") _ 7 ⟨"2025-09-02", "12:00:00", "12:00:00"⟩
      ⟨some 547, none, some "FK violation", "req failed"⟩
      (by decide) (by decide) (by decide) (by decide) (by decide) rfl rfl).2.1
      (by decide)).1
  · exact (bookErr_classification sampleDb "Patient" 3 (some 5) (some "2025-09-02")
      (some "12:00") _ 7 ⟨"2025-09-02", "12:00:00", "12:00:00"⟩
      ⟨some 2627, none, some "dup key", "req failed"⟩
      (by decide) (by decide) (by decide) (by decide) (by decide) rfl rfl).2.2.1
      (by decide) (by decide)

/-- C5: once the procedure has returned an identifier (a nonzero number:
an id of 0 is JS-falsy and the handler treats it as "no identifier",
answering 500), the booking answers 201 with that identifier no matter
how the confirmation side effects fare; when the notification is
recorded, a successful email is logged as `Sent` stamped with the
current time and a failed email as `Failed` with NULL `sent_at`. -/
theorem booking_ack_and_notification (db : DB) (role : String) (uid : Int)
    (did : Option Int) (date time : Option String) (ext : Ext) (pid : Int)
    (sr : SplitResult) (apptId : Int)
    (hrole : isRole role ["Patient"] = true)
    (hd : jsFalsyI did = false) (hda : jsFalsyS date = false)
    (ht : jsFalsyS time = false)
    (hpid : getPatientIdForUser db uid = some pid)
    (hsplit : splitToDateAndTime (date.getD "") (time.getD "") = .ok sr)
    (hsp : ext.spResult = .ok (some apptId)) (hid0 : apptId ≠ 0) :
    (bookMy db role uid did date time ext).2.1 = ⟨201, "", some apptId⟩ ∧
    (ext.infoOk = true → ext.insertOk = true → ext.emailOk = true →
      (bookMy db role uid did date time ext).1.notifications =
        db.notifications ++ [⟨apptId, some ext.now, "Sent"⟩]) ∧
    (ext.infoOk = true → ext.insertOk = true → ext.emailOk = false →
      (bookMy db role uid did date time ext).1.notifications =
        db.notifications ++ [⟨apptId, none, "Failed"⟩]) := by
  have hred := bookMy_sp db role uid did date time ext pid sr hrole hd hda ht hpid hsplit
  rw [hsp] at hred
  have hfal : jsFalsyI (some apptId) = false := by
    simpa [jsFalsyI] using hid0
  simp only [hfal, Bool.false_eq_true, if_false, Option.getD_some] at hred
  refine ⟨?_, ?_, ?_⟩
  · rw [hred]
    by_cases hio : ext.infoOk = true
    · by_cases hins : ext.insertOk = true <;> simp [hio, hins]
    · simp only [Bool.not_eq_true] at hio
      simp [hio]
  · intro hio hins heo
    rw [hred]
    simp [hio, hins, heo, spInsert]
  · intro hio hins heo
    rw [hred]
    simp [hio, hins, heo, spInsert]

/-- Witness for C5 on `sampleDb`: patient user 3 books; the procedure
returns id 2; both the sent and the failed email outcome are recorded. -/
theorem booking_ack_and_notification_witness :
    (bookMy sampleDb "Patient" 3 (some 5) (some "2025-09-02") (some "12:00")
        ⟨.ok (some 2), true, true, true, 100, 2880⟩).2.1 = ⟨201, "", some 2⟩ ∧
    (bookMy sampleDb "Patient" 3 (some 5) (some "2025-09-02") (some "12:00")
        ⟨.ok (some 2), true, true, true, 100, 2880⟩).1.notifications =
      sampleDb.notifications ++ [⟨2, some 100, "Sent"⟩] ∧
    (bookMy sampleDb "Patient" 3 (some 5) (some "2025-09-02") (some "12:00")
        ⟨.ok (some 2), true, false, true, 100, 2880⟩).1.notifications =
      sampleDb.notifications ++ [⟨2, none, "Failed"⟩] := by
  refine ⟨?_, ?_, ?_⟩
  · exact (booking_ack_and_notification sampleDb "Patient" 3 (some 5)
      (some "2025-09-02") (some "12:00") ⟨.ok (some 2), true, true, true, 100, 2880⟩
      7 ⟨"2025-09-02", "12:00:00", "12:00:00"⟩ 2
      (by decide) (by decide) (by decide) (by decide) (by decide) rfl rfl (by decide)).1
  · exact (booking_ack_and_notification sampleDb "Patient" 3 (some 5)
      (some "2025-09-02") (some "12:00") ⟨.ok (some 2), true, true, true, 100, 2880⟩
      7 ⟨"2025-09-02", "12:00:00", "12:00:00"⟩ 2
      (by decide) (by decide) (by decide) (by decide) (by decide) rfl rfl (by decide)).2.1
      rfl rfl rfl
  · exact (booking_ack_and_notification sampleDb "Patient" 3 (some 5)
      (some "2025-09-02") (some "12:00") ⟨.ok (some 2), true, false, true, 100, 2880⟩
      7 ⟨"2025-09-02", "12:00:00", "12:00:00"⟩ 2
      (by decide) (by decide) (by decide) (by decide) (by decide) rfl rfl (by decide)).2.2
      rfl rfl rfl

/-- C9: a booking by an authenticated patient-role user with no Patients
row answers 404 "Patient record not found", mutates nothing, and the
trace shows the stored procedure was never invoked. -/
theorem booking_identity_notFound (db : DB) (role : String) (uid : Int)
    (did : Option Int) (date time : Option String) (ext : Ext)
    (hrole : isRole role ["Patient"] = true)
    (hd : jsFalsyI did = false) (hda : jsFalsyS date = false)
    (ht : jsFalsyS time = false)
    (hpid : getPatientIdForUser db uid = none) :
    (bookMy db role uid did date time ext).1 = db ∧
    (bookMy db role uid did date time ext).2.1 = ⟨404, "Patient record not found", none⟩ ∧
    BookEv.spCall ∉ (bookMy db role uid did date time ext).2.2 := by
  simp [bookMy, hrole, hd, hda, ht, hpid]

/-- Witness for C9: `sampleDb` has no Patients row for user 99. -/
theorem booking_identity_notFound_witness :
    (bookMy sampleDb "Patient" 99 (some 5) (some "2025-09-02") (some "12:00")
        ⟨.ok (some 2), true, true, true, 100, 2880⟩).1 = sampleDb ∧
    (bookMy sampleDb "Patient" 99 (some 5) (some "2025-09-02") (some "12:00")
        ⟨.ok (some 2), true, true, true, 100, 2880⟩).2.1 =
      ⟨404, "Patient record not found", none⟩ ∧
    BookEv.spCall ∉ (bookMy sampleDb "Patient" 99 (some 5) (some "2025-09-02")
        (some "12:00") ⟨.ok (some 2), true, true, true, 100, 2880⟩).2.2 :=
  booking_identity_notFound sampleDb "Patient" 99 (some 5) (some "2025-09-02")
    (some "12:00") ⟨.ok (some 2), true, true, true, 100, 2880⟩
    (by decide) (by decide) (by decide) (by decide) (by decide)

/-- Two instants whose day numbers agree are less than a day apart. -/
theorem lt_of_dateOf_eq {x y : Int} (h : dateOf x = dateOf y) : x < y + 1440 := by
  simp only [dateOf] at h
  omega

/-- C6: on a tick at time `now` the sweep selects exactly the Scheduled
appointments dated tomorrow with no `Sent` notification inside the
trailing dedupe window, and emails exactly those; hence it never emails a
Cancelled appointment, and once it has recorded a `Sent` reminder for an
appointment no later tick (over ids, given id uniqueness) selects that
appointment again. -/
theorem reminderSweep_dedupe_spec (db : DB) (now now2 : Int)
    (emailOk : Int → Bool) (a : Appointment)
    (huniq : db.appointments.Pairwise (fun x y => x.appointment_id ≠ y.appointment_id)) :
    (∀ b : Appointment, b ∈ reminderSelect db now ↔
        b ∈ db.appointments ∧ b.status = "Scheduled" ∧
        dateOf b.appointment_date = dateOf (now + 1440) ∧
        hasSentInWindow db b = false) ∧
    (reminderEmails db now = (reminderSelect db now).map (fun b => b.appointment_id)) ∧
    (a ∈ reminderSelect db now → a.status ≠ "Cancelled") ∧
    (a ∈ reminderSelect db now → emailOk a.appointment_id = true →
      ∀ b ∈ reminderSelect (reminderSweep db now emailOk) now2,
        b.appointment_id ≠ a.appointment_id) := by
  have hmem : ∀ (db' : DB) (now' : Int) (b : Appointment),
      b ∈ reminderSelect db' now' ↔
        b ∈ db'.appointments ∧ b.status = "Scheduled" ∧
        dateOf b.appointment_date = dateOf (now' + 1440) ∧
        hasSentInWindow db' b = false := by
    intro db' now' b
    simp only [reminderSelect, List.mem_filter, Bool.and_eq_true, beq_iff_eq,
      Bool.not_eq_true']
    tauto
  refine ⟨hmem db now, rfl, ?_, ?_⟩
  · intro hsel
    have hs := ((hmem db now a).1 hsel).2.1
    rw [hs]
    decide
  · intro hsel hmail b hb
    intro heq
    obtain ⟨hadb, _, hadate, _⟩ := (hmem db now a).1 hsel
    obtain ⟨hbdb, _, _, hbwin⟩ := (hmem (reminderSweep db now emailOk) now2 b).1 hb
    have hbdb' : b ∈ db.appointments := hbdb
    have hba : b = a := by
      by_contra hne
      exact List.Pairwise.forall (fun {x y} hxy => hxy.symm) huniq hbdb' hadb hne heq
    subst hba
    have hrow : (⟨b.appointment_id, some now, "Sent"⟩ : Notification) ∈
        (reminderSweep db now emailOk).notifications := by
      simp only [reminderSweep]
      refine List.mem_append_right _ ?_
      have := List.mem_map_of_mem (fun x : Appointment =>
        if emailOk x.appointment_id then
          (⟨x.appointment_id, some now, "Sent"⟩ : Notification)
        else ⟨x.appointment_id, none, "Failed"⟩) hsel
      simpa [hmail] using this
    have hwin : b.appointment_date - 2 * 1440 ≤ now := by
      have := lt_of_dateOf_eq hadate
      omega
    have : hasSentInWindow (reminderSweep db now emailOk) b = true := by
      apply List.any_eq_true.2
      exact ⟨⟨b.appointment_id, some now, "Sent"⟩, hrow, by simp; omega⟩
    rw [this] at hbwin
    exact absurd hbwin (by simp)

/-- Witness for C6 on `sweepDb`: the day-1 sweep selects appointment 1
and, after its `Sent` record, a repeated tick selects nothing with that
id. -/
theorem reminderSweep_dedupe_spec_witness :
    (⟨1, 7, 5, 2880, "Scheduled"⟩ : Appointment) ∈ reminderSelect sweepDb 1500 ∧
    ((⟨1, 7, 5, 2880, "Scheduled"⟩ : Appointment) ∈
        reminderSelect (reminderSweep sweepDb 1500 (fun _ => true)) 1500 → False) := by
  have hsel : (⟨1, 7, 5, 2880, "Scheduled"⟩ : Appointment) ∈ reminderSelect sweepDb 1500 := by
    decide
  refine ⟨hsel, fun hmemb => ?_⟩
  exact (reminderSweep_dedupe_spec sweepDb 1500 1500 (fun _ => true)
    ⟨1, 7, 5, 2880, "Scheduled"⟩ (by decide)).2.2.2 hsel rfl _ hmemb rfl

/-- Evaluation of `pad` on every pair of digit values. -/
theorem pad_digit_pair : ∀ d1 < 10, ∀ d2 < 10,
    (pad (10 * d1 + d2)).data = [Char.ofNat (48 + d1), Char.ofNat (48 + d2)] := by decide

/-- A decimal digit character has code point between 48 and 57. -/
theorem isDigit_bounds {c : Char} (h : c.isDigit = true) : 48 ≤ c.toNat ∧ c.toNat ≤ 57 := by
  simp [Char.isDigit] at h
  exact ⟨h.1, h.2⟩

/-- Rebuilding a digit character from its value. -/
theorem ofNat_digit {c : Char} (h : c.isDigit = true) : Char.ofNat (48 + digitVal c) = c := by
  have hb := isDigit_bounds h
  have he : 48 + digitVal c = c.toNat := by
    simp only [digitVal]
    omega
  rw [he, Char.ofNat_toNat]

/-- Evaluation of `pad` at a two-digit value prints exactly the two digit characters. -/
theorem pad_digits {a b : Char} (ha : a.isDigit = true) (hb : b.isDigit = true) :
    (pad (10 * digitVal a + digitVal b)).data = [a, b] := by
  have hA := isDigit_bounds ha
  have hB := isDigit_bounds hb
  have h1 : digitVal a < 10 := by simp only [digitVal]; omega
  have h2 : digitVal b < 10 := by simp only [digitVal]; omega
  rw [pad_digit_pair (digitVal a) h1 (digitVal b) h2, ofNat_digit ha, ofNat_digit hb]

/-- Characterization of a successful `^(\d2):(\d2):(\d2)$` match. -/
theorem matchHHMMSS_some {t : String} {h m s : Nat}
    (hm : matchHHMMSS t = some (h, m, s)) :
    ∃ h1 h2 m1 m2 s1 s2 : Char,
      t.data = [h1, h2, ':', m1, m2, ':', s1, s2] ∧
      h1.isDigit = true ∧ h2.isDigit = true ∧ m1.isDigit = true ∧
      m2.isDigit = true ∧ s1.isDigit = true ∧ s2.isDigit = true ∧
      h = 10 * digitVal h1 + digitVal h2 ∧
      m = 10 * digitVal m1 + digitVal m2 ∧
      s = 10 * digitVal s1 + digitVal s2 := by
  unfold matchHHMMSS at hm
  split at hm
  case _ h1 h2 c1 m1 m2 c2 s1 s2 heq =>
    split at hm
    case _ hcond =>
      simp only [Bool.and_eq_true, beq_iff_eq] at hcond
      obtain ⟨⟨⟨⟨⟨⟨⟨hd1, hd2⟩, hc1⟩, hd3⟩, hd4⟩, hc2⟩, hd5⟩, hd6⟩ := hcond
      simp only [Option.some.injEq, Prod.mk.injEq] at hm
      obtain ⟨hh, hmm, hss⟩ := hm
      subst hc1 hc2
      exact ⟨h1, h2, m1, m2, s1, s2, heq, hd1, hd2, hd3, hd4, hd5, hd6,
        hh.symm, hmm.symm, hss.symm⟩
    case _ => exact absurd hm (by simp)
  case _ => exact absurd hm (by simp)

/-- The characters of the literal `":"`. -/
theorem colon_data : (":" : String).data = [':'] := rfl

/-- Rebuilding the matched time from its padded components returns the
matched string itself. -/
theorem timeOnly_roundtrip {t : String} {h m s : Nat}
    (hm : matchHHMMSS t = some (h, m, s)) :
    pad h ++ ":" ++ pad m ++ ":" ++ pad s = t := by
  obtain ⟨h1, h2, m1, m2, s1, s2, heq, hd1, hd2, hd3, hd4, hd5, hd6, hh, hmm, hss⟩ :=
    matchHHMMSS_some hm
  apply String.ext
  subst hh hmm hss
  simp only [String.data_append, pad_digits hd1 hd2, pad_digits hd3 hd4,
    pad_digits hd5 hd6, colon_data, heq]
  rfl

/-- A string whose match succeeds is nonempty (for the `!timeStr` guard). -/
theorem ne_empty_of_match {t : String} {v : Nat × Nat × Nat}
    (hm : matchHHMMSS t = some v) : (t == "") = false := by
  rw [beq_eq_false_iff_ne]
  intro he
  rw [he] at hm
  have hn : (none : Option (Nat × Nat × Nat)) = some v := hm
  exact Option.noConfusion hn

/-- C4: `splitToDateAndTime` rejects a missing (empty) date or time;
appends ":00" to a well-formed `HH:MM` time; keeps a well-formed
`HH:MM:SS` time unchanged (so normalization is idempotent); rejects any
time that matches neither two-digit form after normalization; and rejects
hour > 23, minute > 59 or second > 59. -/
theorem splitToDateAndTime_spec (d t : String) :
    ((d = "" ∨ t = "") → ∃ msg, splitToDateAndTime d t = .error msg) ∧
    (d ≠ "" → t.length = 5 → ∀ h m s, matchHHMMSS (t ++ ":00") = some (h, m, s) →
      h ≤ 23 → m ≤ 59 →
      splitToDateAndTime d t = .ok ⟨d, t ++ ":00", t ++ ":00"⟩) ∧
    (d ≠ "" → t.length ≠ 5 → ∀ h m s, matchHHMMSS t = some (h, m, s) →
      h ≤ 23 → m ≤ 59 → s ≤ 59 →
      splitToDateAndTime d t = .ok ⟨d, t, t⟩) ∧
    (t.length = 5 → matchHHMMSS (t ++ ":00") = none →
      ∃ msg, splitToDateAndTime d t = .error msg) ∧
    (t.length ≠ 5 → matchHHMMSS t = none →
      ∃ msg, splitToDateAndTime d t = .error msg) ∧
    (∀ h m s, matchHHMMSS (if t.length = 5 then t ++ ":00" else t) = some (h, m, s) →
      (23 < h ∨ 59 < m ∨ 59 < s) →
      ∃ msg, splitToDateAndTime d t = .error msg) := by
  refine ⟨?_, ?_, ?_, ?_, ?_, ?_⟩
  · rintro (rfl | rfl) <;> exact ⟨"date and time are required", by simp [splitToDateAndTime]⟩
  · intro hd hlen h m s hm hh23 hm59
    have hdne : (d == "") = false := beq_eq_false_iff_ne.2 hd
    have htne : (t == "") = false := by
      rw [beq_eq_false_iff_ne]
      intro he
      rw [he] at hlen
      exact absurd hlen (by decide)
    have hlenb : (t.length == 5) = true := by simp [hlen]
    obtain ⟨h1, h2, m1, m2, s1, s2, heq, hd1, hd2, hd3, hd4, hd5, hd6, hhv, hmv, hsv⟩ :=
      matchHHMMSS_some hm
    rw [String.data_append] at heq
    have h300 : (":00" : String).data = [':', '0', '0'] := rfl
    rw [h300] at heq
    have hdlen : t.data.length = 5 := hlen
    have heq' : t.data ++ [':', '0', '0'] =
        ([h1, h2, ':', m1, m2] : List Char) ++ [':', s1, s2] := by
      rw [heq]
      rfl
    obtain ⟨htdata, htail⟩ := List.append_inj heq' (by simp [hdlen])
    have htail' : ('0' : Char) = s1 ∧ ('0' : Char) = s2 := by
      simpa using htail
    have hs1 : s1 = '0' := htail'.1.symm
    have hs2 : s2 = '0' := htail'.2.symm
    have hs0 : s = 0 := by
      rw [hsv, hs1, hs2]
      decide
    have hbound : (decide (h > 23) || decide (m > 59) || decide (s > 59)) = false := by
      simp only [Bool.or_eq_false_iff, decide_eq_false_iff_not, Nat.not_lt]
      omega
    simp only [splitToDateAndTime, hdne, htne, Bool.or_self, hlenb, if_true,
      Bool.false_eq_true, if_false, hm, hbound]
    rw [timeOnly_roundtrip hm]
  · intro hd hlen h m s hm hh23 hm59 hs59
    have hdne : (d == "") = false := beq_eq_false_iff_ne.2 hd
    have htne : (t == "") = false := ne_empty_of_match hm
    have hlenb : (t.length == 5) = false := by
      rw [beq_eq_false_iff_ne]
      exact hlen
    have hbound : (decide (h > 23) || decide (m > 59) || decide (s > 59)) = false := by
      simp only [Bool.or_eq_false_iff, decide_eq_false_iff_not, Nat.not_lt]
      omega
    simp only [splitToDateAndTime, hdne, htne, Bool.or_self, hlenb,
      Bool.false_eq_true, if_false, hm, hbound]
    rw [timeOnly_roundtrip hm]
  · intro hlen hm
    by_cases hde : (d == "" || t == "") = true
    · exact ⟨"date and time are required", by simp only [splitToDateAndTime, hde, if_true]⟩
    · have hlenb : (t.length == 5) = true := by simp [hlen]
      refine ⟨"Invalid time; expected HH:mm or HH:mm:ss", ?_⟩
      simp only [splitToDateAndTime, hde, Bool.false_eq_true, if_false, hlenb, if_true, hm]
  · intro hlen hm
    by_cases hde : (d == "" || t == "") = true
    · exact ⟨"date and time are required", by simp only [splitToDateAndTime, hde, if_true]⟩
    · have hlenb : (t.length == 5) = false := by
        rw [beq_eq_false_iff_ne]
        exact hlen
      refine ⟨"Invalid time; expected HH:mm or HH:mm:ss", ?_⟩
      simp only [splitToDateAndTime, hde, Bool.false_eq_true, if_false, hlenb, hm]
  · intro h m s hm hbad
    by_cases hde : (d == "" || t == "") = true
    · exact ⟨"date and time are required", by simp only [splitToDateAndTime, hde, if_true]⟩
    · have hbound : (decide (h > 23) || decide (m > 59) || decide (s > 59)) = true := by
        simp only [Bool.or_eq_true, decide_eq_true_eq]
        tauto
      by_cases hlen : t.length = 5
      · have hlenb : (t.length == 5) = true := by simp [hlen]
        rw [if_pos hlen] at hm
        refine ⟨"Invalid time components", ?_⟩
        simp only [splitToDateAndTime, hde, Bool.false_eq_true, if_false, hlenb,
          if_true, hm, hbound]
      · have hlenb : (t.length == 5) = false := by
          rw [beq_eq_false_iff_ne]
          exact hlen
        rw [if_neg hlen] at hm
        refine ⟨"Invalid time components", ?_⟩
        simp only [splitToDateAndTime, hde, Bool.false_eq_true, if_false, hlenb, hm, hbound]
        simp

/-- Witness for C4: "12:00" gains ":00", "12:00:00" is unchanged, "12:0"
and hour 24 are rejected, and so is a missing time. -/
theorem splitToDateAndTime_spec_witness :
    splitToDateAndTime "2025-09-02" "12:00" =
      .ok ⟨"2025-09-02", "12:00:00", "12:00:00"⟩ ∧
    splitToDateAndTime "2025-09-02" "12:00:00" =
      .ok ⟨"2025-09-02", "12:00:00", "12:00:00"⟩ ∧
    (∃ msg, splitToDateAndTime "2025-09-02" "12:0" = .error msg) ∧
    (∃ msg, splitToDateAndTime "2025-09-02" "24:00" = .error msg) ∧
    (∃ msg, splitToDateAndTime "2025-09-02" "" = .error msg) := by
  refine ⟨?_, ?_, ?_, ?_, ?_⟩
  · have hthis := (splitToDateAndTime_spec "2025-09-02" "12:00").2.1 (by decide) rfl
      12 0 0 rfl (by decide) (by decide)
    have happ : ("12:00" : String) ++ ":00" = "12:00:00" := rfl
    rw [happ] at hthis
    exact hthis
  · exact (splitToDateAndTime_spec "2025-09-02" "12:00:00").2.2.1 (by decide) (by decide)
      12 0 0 rfl (by decide) (by decide) (by decide)
  · exact (splitToDateAndTime_spec "2025-09-02" "12:0").2.2.2.2.1 (by decide) rfl
  · exact (splitToDateAndTime_spec "2025-09-02" "24:00").2.2.2.2.2 24 0 0 rfl
      (Or.inl (by decide))
  · exact (splitToDateAndTime_spec "2025-09-02" "").1 (Or.inr rfl)

end SHP
